import Mathlib

/-!
Shallow embedding of the CLG-MCP protocol/session layer
(src/utils/auth.ts, src/mcp/sse.ts, src/mcp/handler.ts, src/index.ts).

Conventions of the embedding:
* JS strings are Lean `String`; `string | undefined` is `Option String`,
  and the JS falsiness of the empty string is modelled explicitly wherever
  the source tests a string with `!x` or `if (x)`.
* Timestamps (`Date.now()`) are `Int` clock values passed explicitly.
  Calls that read the clock several times inside one synchronous block are
  modelled with a single `now` value.
* The JS `Map` of SSE connections is a `List SSEConnection` in insertion
  order; `Map.delete id` and in-place mutation of the entry found by
  `Map.get id` are modelled as removal / update of the entries carrying
  that id (a `Map` holds at most one entry per key).
* Exceptions are `Except String`: a thrown `Error` is `Except.error` with
  its message.  Code that cannot throw in the model is total.
* The Resource Provider (scraper tools, out of the spec core) is an
  abstract record of five functions that may return a value or throw.
-/

namespace CLG

/-- Characters matched by the JS regex class backslash-s
(ECMAScript WhiteSpace and LineTerminator). -/
def jsWhitespace (c : Char) : Bool :=
  c = ' ' || c = '\t' || c = '\n' || c = '\x0b' || c = '\x0c' || c = '\r' ||
  c = ' ' || c = ' ' || (' ' ≤ c && c ≤ ' ') ||
  c = ' ' || c = ' ' || c = ' ' || c = ' ' ||
  c = '　' || c = '﻿'

/-- ECMAScript line terminators, which the JS regex `.` does not match. -/
def jsLineTerminator (c : Char) : Bool :=
  c = '\n' || c = '\r' || c = ' ' || c = ' '

/-- JS `String.prototype.trim`, which strips the same whitespace class. -/
def jsTrim (s : String) : String :=
  String.mk (((s.toList.dropWhile (fun c => jsWhitespace c)).reverse.dropWhile
    (fun c => jsWhitespace c)).reverse)

/-- JS falsiness of an optional string (`!x`): absent or empty. -/
def jsFalsy (o : Option String) : Bool :=
  match o with
  | none => true
  | some s => s = ""

/-- JS truthiness of an optional string (`if (x)`). -/
def jsTruthy (o : Option String) : Bool :=
  match o with
  | none => false
  | some s => s ≠ ""

/-- JS `x || d` on an optional string. -/
def jsOr (o : Option String) (d : String) : String :=
  match o with
  | none => d
  | some s => if s = "" then d else s

/-- JS `s.split(",")` on the character list: every comma separates, the
empty string yields one empty piece, a trailing comma a trailing empty
piece. -/
def splitCommaAux : List Char → List (List Char)
  | [] => [[]]
  | c :: cs =>
    let r := splitCommaAux cs
    if c = ',' then [] :: r
    else
      match r with
      | [] => [[c]]
      | h :: t => (c :: h) :: t

/-- JS `s.split(",")`. -/
def splitComma (s : String) : List String :=
  (splitCommaAux s.toList).map String.mk

/-- Matcher for the tail of the regex `^Bearer\s+(.+)$` once one whitespace
character has been consumed: greedily extend the `\s+` run, backtracking
until the rest of the input is a nonempty run of non-line-terminator
characters, which becomes the capture (JS `.` does not cross line
terminators and `$` anchors at the very end). -/
def wsThenDot : List Char → Option (List Char)
  | [] => none
  | c :: cs =>
    if jsWhitespace c then
      match wsThenDot cs with
      | some t => some t
      | none =>
        if (c :: cs).all (fun d => !jsLineTerminator d) then some (c :: cs) else none
    else
      if (c :: cs).all (fun d => !jsLineTerminator d) then some (c :: cs) else none

/-- Capture group of `h.match(/^Bearer\s+(.+)$/)`: `some token` when the
header matches, `none` otherwise (src/utils/auth.ts lines 31 and 96). -/
def bearerCapture (h : String) : Option String :=
  match h.toList with
  | 'B' :: 'e' :: 'a' :: 'r' :: 'e' :: 'r' :: c :: cs =>
    if jsWhitespace c then (wsThenDot (c :: cs)).map String.mk else none
  | _ => none

/-- AuthResult of src/utils/auth.ts. -/
structure AuthResult where
  isAuthenticated : Bool
  error : Option String
deriving DecidableEq

/-- The environment bindings read by the protocol/session layer. -/
structure Env where
  MCP_AUTH_TOKEN : Option String
  MCP_AUTH_TOKENS : Option String
  ENVIRONMENT : Option String
  SSE_ENABLED : Option String
deriving DecidableEq

/-- authenticateRequest (src/utils/auth.ts lines 14-50).  The incoming
request is represented by its Authorization header. -/
def authenticateRequest (authorization : Option String) (env : Env) : AuthResult :=
  match env.MCP_AUTH_TOKEN with
  | none => ⟨true, none⟩
  | some expected =>
    if expected = "" then ⟨true, none⟩
    else
      match authorization with
      | none => ⟨false, some "Missing Authorization header"⟩
      | some h =>
        if h = "" then ⟨false, some "Missing Authorization header"⟩
        else
          match bearerCapture h with
          | none => ⟨false, some "Invalid Authorization header format. Expected: Bearer <token>"⟩
          | some providedToken =>
            if providedToken = expected then ⟨true, none⟩
            else ⟨false, some "Invalid authentication token"⟩

/-- authenticateRequestMultiKey (src/utils/auth.ts lines 80-117). -/
def authenticateRequestMultiKey (authorization : Option String) (env : Env) : AuthResult :=
  let singleTokenResult := authenticateRequest authorization env
  if singleTokenResult.isAuthenticated || jsFalsy env.MCP_AUTH_TOKENS then
    singleTokenResult
  else
    match authorization with
    | none => ⟨false, some "Missing Authorization header"⟩
    | some h =>
      if h = "" then ⟨false, some "Missing Authorization header"⟩
      else
        match bearerCapture h with
        | none => ⟨false, some "Invalid Authorization header format. Expected: Bearer <token>"⟩
        | some providedToken =>
          let validTokens := (splitComma (env.MCP_AUTH_TOKENS.getD "")).map jsTrim
          if providedToken ∈ validTokens then ⟨true, none⟩
          else ⟨false, some "Invalid authentication token"⟩

/-! ## MCP data model (src/types.ts) -/

deriving instance DecidableEq for Except

/-- A JSON-RPC id, `string | number` in src/types.ts. -/
inductive RId where
  | str (s : String)
  | num (n : Int)
deriving DecidableEq

/-- MCPError of src/types.ts (the optional `data` field is never
set by this repository and is omitted). -/
structure MCPError where
  code : Int
  message : String
deriving DecidableEq

/-- Tool descriptor.  Only the `name` key is consulted by the dispatch
code; the static `description` and `inputSchema` fields are static data
never read by the protocol layer and are omitted from the embedding. -/
structure MCPTool where
  name : String
deriving DecidableEq

/-- The `params` object read by handleToolCallWrapper:
`{ name, arguments }`, with `arguments` an uninterpreted structured value. -/
structure ToolCallParams where
  name : String
  arguments : Option String
deriving DecidableEq

/-- Result payloads produced by the four method handlers.  The static
initialize/initialized payloads are abstracted to tags; a tool result is
the textual content produced from the provider value. -/
inductive ResultVal where
  | initializeResult
  | emptyResult
  | toolsList (tools : List MCPTool)
  | content (text : String)
deriving DecidableEq

/-- MCPResponse of src/types.ts. -/
structure MCPResponse where
  jsonrpc : String
  id : RId
  result : Option ResultVal
  error : Option MCPError
deriving DecidableEq

/-- MCPRequest of src/types.ts; `params?: any` is optional, and for the
dispatch code its only consulted shape is ToolCallParams. -/
structure MCPRequest where
  jsonrpc : String
  id : RId
  method : String
  params : Option ToolCallParams
deriving DecidableEq

/-- The excluded Resource Provider: the five tool implementations of
src/mcp/tools.ts, each taking the uninterpreted arguments value and either
returning a value (abstracted to its serialized text) or throwing. -/
structure Provider where
  searchResources : Option String → Except String String
  browseCategories : Option String → Except String String
  getResourceDetails : Option String → Except String String
  filterResources : Option String → Except String String
  getLocationResources : Option String → Except String String

/-- Names of the five published tools (the switch cases of
handleToolCallWrapper, src/mcp/handler.ts). -/
def toolNames : List String :=
  ["search_genealogy_resources", "browse_categories", "get_resource_details",
   "filter_resources", "get_location_resources"]

/-- The static tool catalog returned by handleToolsList. -/
def toolDescriptors : List MCPTool := toolNames.map MCPTool.mk

/-- The switch of handleToolCallWrapper: route the tool name to the
provider function, or throw `Unknown tool: <name>` (the thrown Error is
caught by the surrounding try of the same function). -/
def invokeTool (p : Provider) (name : String) (args : Option String) : Except String String :=
  if name = "search_genealogy_resources" then p.searchResources args
  else if name = "browse_categories" then p.browseCategories args
  else if name = "get_resource_details" then p.getResourceDetails args
  else if name = "filter_resources" then p.filterResources args
  else if name = "get_location_resources" then p.getLocationResources args
  else Except.error ("Unknown tool: " ++ name)

/-- handleInitialize (src/mcp/handler.ts): static capability payload. -/
def handleInitialize (request : MCPRequest) : MCPResponse :=
  ⟨"2.0", request.id, some ResultVal.initializeResult, none⟩

/-- handleInitialized: empty result. -/
def handleInitialized (request : MCPRequest) : MCPResponse :=
  ⟨"2.0", request.id, some ResultVal.emptyResult, none⟩

/-- handleToolsList: the static catalog. -/
def handleToolsList (request : MCPRequest) : MCPResponse :=
  ⟨"2.0", request.id, some (ResultVal.toolsList toolDescriptors), none⟩

/-- Message of the TypeError raised by
`const { name, arguments: args } = request.params;` when `params` is
absent (the exact engine wording is platform specific and abstracted). -/
def destructureTypeErrorMessage : String :=
  "Cannot destructure property name of request.params as it is undefined."

/-- handleToolCallWrapper (src/mcp/handler.ts lines 570-625).  The
destructuring of `request.params` happens before the try block, so an
absent `params` throws out of the function; inside the try, an unknown
name or a provider throw is caught and wrapped into a structured error. -/
def handleToolCallWrapper (request : MCPRequest) (p : Provider) : Except String MCPResponse :=
  match request.params with
  | none => Except.error destructureTypeErrorMessage
  | some prm =>
    match invokeTool p prm.name prm.arguments with
    | Except.ok result =>
      Except.ok ⟨"2.0", request.id, some (ResultVal.content result), none⟩
    | Except.error msg =>
      Except.ok ⟨"2.0", request.id, none, some ⟨-32603, "Tool execution failed: " ++ msg⟩⟩

/-- handleMCPRequestInternal (src/mcp/handler.ts lines 372-400): the
method switch. -/
def handleMCPRequestInternal (mcpRequest : MCPRequest) (p : Provider) : Except String MCPResponse :=
  if mcpRequest.method = "initialize" then Except.ok (handleInitialize mcpRequest)
  else if mcpRequest.method = "initialized" then Except.ok (handleInitialized mcpRequest)
  else if mcpRequest.method = "tools/list" then Except.ok (handleToolsList mcpRequest)
  else if mcpRequest.method = "tools/call" then handleToolCallWrapper mcpRequest p
  else Except.ok ⟨"2.0", mcpRequest.id, none, some ⟨-32601, "Method not found"⟩⟩

/-- handleMCPRequest (src/index.ts lines 130-152): parse the body, map a
parse failure to the -32700 envelope with id 0, else dispatch.  The body
is represented by its parse result (`none` when JSON.parse throws). -/
def handleMCPRequest (parsed : Option MCPRequest) (p : Provider) : Except String MCPResponse :=
  match parsed with
  | none => Except.ok ⟨"2.0", RId.num 0, none, some ⟨-32700, "Parse error"⟩⟩
  | some mcpRequest => handleMCPRequestInternal mcpRequest p

/-! ## SSE connection manager (src/mcp/sse.ts) -/

/-- Behavior of a sink when a frame is pushed through it.  The controller
objects built by createSSEResponse wrap `writer.write`: a delivery either
succeeds, or the enqueue call throws to its caller, or the sink swallows
the failure internally and removes its own connection from the manager
(the catch inside the `enqueue` closure of createSSEResponse). -/
inductive EnqueueOutcome where
  | ok
  | throws
  | removesSelf
deriving DecidableEq

/-- SSEConnection of src/types.ts: identity, timestamps, and the
controller abstracted to its delivery behavior. -/
structure SSEConnection where
  id : String
  createdAt : Int
  lastActivity : Int
  enqueueOutcome : EnqueueOutcome
deriving DecidableEq

/-- `connections.delete(id)` on the manager Map: drop the entries keyed
by `id` (at most one in a Map). -/
def connectionsDelete (registry : List SSEConnection) (id : String) : List SSEConnection :=
  registry.filter (fun c => !(c.id == id))

/-- updateActivity: set `lastActivity` on the entry found under `id`,
no-op when absent. -/
def updateActivity (registry : List SSEConnection) (id : String) (now : Int) : List SSEConnection :=
  registry.map (fun c => if c.id == id then { c with lastActivity := now } else c)

/-- Default heartbeat interval of SSEConnectionManager (30000 ms); the
global manager is constructed with no argument. -/
def heartbeatIntervalDefault : Int := 30000

/-- Body of the cleanup loop (src/mcp/sse.ts lines 46-55): visit every
entry; when `now - lastActivity > timeout`, close the sink (tolerating a
throw) and delete the entry.  Returns the surviving entries and the ids
that were closed and removed. -/
def cleanupLoop (now timeout : Int) : List SSEConnection → List SSEConnection × List String
  | [] => ([], [])
  | c :: rest =>
    let r := cleanupLoop now timeout rest
    if now - c.lastActivity > timeout then (r.1, c.id :: r.2)
    else (c :: r.1, r.2)

/-- SSEConnectionManager.cleanup (src/mcp/sse.ts lines 42-56): the idle
sweep with threshold `heartbeatInterval * 3`. -/
def cleanup (registry : List SSEConnection) (now : Int) (heartbeatInterval : Int) :
    List SSEConnection × List String :=
  cleanupLoop now (heartbeatInterval * 3) registry

/-- SSEConnectionManager.sendHeartbeat (src/mcp/sse.ts lines 58-73):
enqueue the heartbeat frame on every connection; on success
updateActivity stamps the entry (a no-op if the sink already removed
itself), on a throw the entry is deleted at once. -/
def sendHeartbeatLoop (now : Int) : List SSEConnection → List SSEConnection
  | [] => []
  | c :: rest =>
    match c.enqueueOutcome with
    | EnqueueOutcome.ok => { c with lastActivity := now } :: sendHeartbeatLoop now rest
    | EnqueueOutcome.throws => sendHeartbeatLoop now rest
    | EnqueueOutcome.removesSelf => sendHeartbeatLoop now rest

/-- sendHeartbeat on the whole registry at broadcast time `now`. -/
def sendHeartbeat (registry : List SSEConnection) (now : Int) : List SSEConnection :=
  sendHeartbeatLoop now registry

/-- The `{ totalConnections, activeConnections }` record of getSSEStats. -/
structure SSEStats where
  totalConnections : Nat
  activeConnections : Nat
deriving DecidableEq

/-- getSSEStats (src/mcp/sse.ts lines 346-363): run cleanup on the shared
manager first, then count the surviving connections, an active one being
a connection with `now - lastActivity <= 90000`.  Returns the stats and
the mutated registry. -/
def getSSEStats (registry : List SSEConnection) (now : Int) : SSEStats × List SSEConnection :=
  let cleaned := (cleanup registry now heartbeatIntervalDefault).1
  let activeConnections :=
    (cleaned.filter (fun c => decide (now - c.lastActivity ≤ 90000))).length
  (⟨cleaned.length, activeConnections⟩, cleaned)

/-! ## HTTP surface (src/index.ts and handleSSERequest of src/mcp/sse.ts) -/

/-- MCPSSERequest of src/types.ts: the MCP envelope plus an optional
connectionId.  A POST body is represented by its parse result. -/
structure MCPSSERequest where
  jsonrpc : String
  id : RId
  method : String
  params : Option ToolCallParams
  connectionId : Option String
deriving DecidableEq

/-- The projection performed by processSSEMCPRequest (src/mcp/sse.ts
lines 262-268): rebuild a plain MCPRequest from the SSE envelope. -/
def MCPSSERequest.toMCPRequest (r : MCPSSERequest) : MCPRequest :=
  ⟨r.jsonrpc, r.id, r.method, r.params⟩

/-- MCPSSEResponse of src/types.ts: the MCP response spread together with
`protocol: sse`, the request connectionId and a timestamp. -/
structure MCPSSEResponse where
  jsonrpc : String
  id : RId
  result : Option ResultVal
  error : Option MCPError
  protocol : String
  connectionId : Option String
  timestamp : Int
deriving DecidableEq

/-- The SSE response constructed by processSSEMCPRequest lines 274-279. -/
def toSSEResponse (m : MCPResponse) (connectionId : Option String) (now : Int) : MCPSSEResponse :=
  ⟨m.jsonrpc, m.id, m.result, m.error, "sse", connectionId, now⟩

/-- Shapes of HTTP response bodies produced by the routing layer. -/
inductive RespBody where
  | empty
  | text (s : String)
  | unauthorized (message : String)
  | info
  | health (status : String) (environment : String) (sseEnabled : Bool) (stats : SSEStats)
  | mcp (response : MCPResponse)
  | errJson (error : String) (code : Int)
  | errJsonMsg (error : String) (code : Int) (message : String)
  | sseStream (connectionId : String)
  | sentAck
  | sseDirect (response : MCPSSEResponse)
deriving DecidableEq

/-- An HTTP response: status code and body shape. -/
structure HttpResponse where
  status : Nat
  body : RespBody
deriving DecidableEq

/-- Everything an invocation of the worker produces: the HTTP response,
the registry after the call, the frames delivered through sinks
(connection id and payload), and the requests handed to the dispatcher. -/
structure FetchResult where
  response : HttpResponse
  registry : List SSEConnection
  delivered : List (String × MCPSSEResponse)
  dispatched : List MCPRequest
deriving DecidableEq

/-- HTTP methods routed by the worker. -/
inductive HttpMethod where
  | GET
  | POST
  | OPTIONS
  | other
deriving DecidableEq

/-- createUnauthorizedResponse (src/utils/auth.ts lines 57-72). -/
def createUnauthorizedHttp (message : Option String) : HttpResponse :=
  ⟨401, RespBody.unauthorized (jsOr message "Unauthorized")⟩

/-- createSSEResponse (src/mcp/sse.ts lines 104-158): allocate a fresh
connection id, register the connection, return the open stream.  The id
generation and the future behavior of the writer are inputs (`freshId`,
`freshSink`); `Map.set` of a fresh key appends in iteration order. -/
def createSSEResponseModel (registry : List SSEConnection) (now : Int)
    (freshId : String) (freshSink : EnqueueOutcome) :
    HttpResponse × List SSEConnection :=
  (⟨200, RespBody.sseStream freshId⟩, registry ++ [⟨freshId, now, now, freshSink⟩])

/-- handleSSERequest (src/mcp/sse.ts lines 160-253), with sendSSEMessage
(lines 284-308) inlined at its single POST call site.  The outer
try/catch of the POST branch maps an exception thrown by dispatch to an
HTTP 500 with the -32603 envelope. -/
def handleSSERequest (method : HttpMethod) (authorization : Option String)
    (parsed : Option MCPSSERequest) (env : Env) (registry : List SSEConnection)
    (now : Int) (freshId : String) (freshSink : EnqueueOutcome) (p : Provider) :
    FetchResult :=
  match method with
  | HttpMethod.OPTIONS => ⟨⟨200, RespBody.empty⟩, registry, [], []⟩
  | HttpMethod.GET =>
    let auth := authenticateRequestMultiKey authorization env
    if auth.isAuthenticated then
      let r := createSSEResponseModel registry now freshId freshSink
      ⟨r.1, r.2, [], []⟩
    else ⟨createUnauthorizedHttp auth.error, registry, [], []⟩
  | HttpMethod.POST =>
    let auth := authenticateRequestMultiKey authorization env
    if !auth.isAuthenticated then ⟨createUnauthorizedHttp auth.error, registry, [], []⟩
    else
      match parsed with
      | none => ⟨⟨400, RespBody.errJson "Invalid JSON" (-32700)⟩, registry, [], []⟩
      | some sseRequest =>
        if jsTruthy sseRequest.connectionId then
          let cid := sseRequest.connectionId.getD ""
          match registry.find? (fun c => c.id == cid) with
          | none => ⟨⟨400, RespBody.errJson "Connection not found" (-32001)⟩, registry, [], []⟩
          | some _ =>
            let reg1 := updateActivity registry cid now
            match handleMCPRequestInternal sseRequest.toMCPRequest p with
            | Except.error msg =>
              ⟨⟨500, RespBody.errJsonMsg "Internal server error" (-32603) msg⟩,
                reg1, [], [sseRequest.toMCPRequest]⟩
            | Except.ok mcpResponse =>
              let sseResponse := toSSEResponse mcpResponse sseRequest.connectionId now
              match reg1.find? (fun c => c.id == cid) with
              | none => ⟨⟨200, RespBody.sentAck⟩, reg1, [], [sseRequest.toMCPRequest]⟩
              | some c =>
                match c.enqueueOutcome with
                | EnqueueOutcome.ok =>
                  ⟨⟨200, RespBody.sentAck⟩, updateActivity reg1 cid now,
                    [(cid, sseResponse)], [sseRequest.toMCPRequest]⟩
                | EnqueueOutcome.throws =>
                  ⟨⟨200, RespBody.sentAck⟩, connectionsDelete reg1 cid, [],
                    [sseRequest.toMCPRequest]⟩
                | EnqueueOutcome.removesSelf =>
                  ⟨⟨200, RespBody.sentAck⟩, connectionsDelete reg1 cid, [],
                    [sseRequest.toMCPRequest]⟩
        else
          match handleMCPRequestInternal sseRequest.toMCPRequest p with
          | Except.error msg =>
            ⟨⟨500, RespBody.errJsonMsg "Internal server error" (-32603) msg⟩,
              registry, [], [sseRequest.toMCPRequest]⟩
          | Except.ok mcpResponse =>
            ⟨⟨200, RespBody.sseDirect (toSSEResponse mcpResponse sseRequest.connectionId now)⟩,
              registry, [], [sseRequest.toMCPRequest]⟩
  | HttpMethod.other => ⟨⟨405, RespBody.text "Method not allowed"⟩, registry, [], []⟩

/-- The worker entry point `fetch` of src/index.ts: CORS preflight,
GET routing (/health, /sse, /), POST routing (/sse, default JSON-RPC
path), 405 otherwise.  On the default POST path an exception escaping
handleMCPRequest is caught and turned into a 500 with a -32603 envelope
carrying id 0. -/
def fetch (method : HttpMethod) (path : String) (authorization : Option String)
    (body : Option MCPSSERequest) (env : Env) (registry : List SSEConnection)
    (now : Int) (freshId : String) (freshSink : EnqueueOutcome) (p : Provider) :
    FetchResult :=
  match method with
  | HttpMethod.OPTIONS => ⟨⟨200, RespBody.empty⟩, registry, [], []⟩
  | HttpMethod.GET =>
    if path = "/health" then
      let s := getSSEStats registry now
      ⟨⟨200, RespBody.health "healthy" (jsOr env.ENVIRONMENT "unknown")
          (!(env.SSE_ENABLED == some "false")) s.1⟩, s.2, [], []⟩
    else if path = "/sse" then
      handleSSERequest HttpMethod.GET authorization body env registry now freshId freshSink p
    else if path = "/" then ⟨⟨200, RespBody.info⟩, registry, [], []⟩
    else ⟨⟨404, RespBody.text "Not found"⟩, registry, [], []⟩
  | HttpMethod.POST =>
    if path = "/sse" then
      handleSSERequest HttpMethod.POST authorization body env registry now freshId freshSink p
    else
      let auth := authenticateRequestMultiKey authorization env
      if !auth.isAuthenticated then ⟨createUnauthorizedHttp auth.error, registry, [], []⟩
      else
        let parsed := body.map MCPSSERequest.toMCPRequest
        match handleMCPRequest parsed p with
        | Except.ok response => ⟨⟨200, RespBody.mcp response⟩, registry, [], parsed.toList⟩
        | Except.error _ =>
          ⟨⟨500, RespBody.mcp ⟨"2.0", RId.num 0, none, some ⟨-32603, "Internal server error"⟩⟩⟩,
            registry, [], parsed.toList⟩
  | HttpMethod.other => ⟨⟨405, RespBody.text "Method not allowed"⟩, registry, [], []⟩

/-- A concrete provider whose five tools all succeed, used to instantiate
witnesses and counterexamples. -/
def trivialProvider : Provider :=
  ⟨fun _ => Except.ok "search", fun _ => Except.ok "browse", fun _ => Except.ok "details",
   fun _ => Except.ok "filter", fun _ => Except.ok "location"⟩

/-! ## Helper lemmas (shared; not claim theorems) -/

/-- The cleanup loop keeps exactly the entries at or below the timeout
and closes exactly the ids of the entries above it. -/
theorem cleanupLoop_eq (now timeout : Int) (l : List SSEConnection) :
    cleanupLoop now timeout l =
      (l.filter (fun c => decide (now - c.lastActivity ≤ timeout)),
       (l.filter (fun c => decide (timeout < now - c.lastActivity))).map (fun c => c.id)) := by
  induction l with
  | nil => rfl
  | cons c rest ih =>
    by_cases h : timeout < now - c.lastActivity
    · have h2 : ¬ (now - c.lastActivity ≤ timeout) := by omega
      simp only [cleanupLoop, ih, List.filter_cons, decide_eq_true_eq, gt_iff_lt,
        if_pos h, if_neg h2, List.map_cons]
    · have h2 : now - c.lastActivity ≤ timeout := by omega
      simp only [cleanupLoop, ih, List.filter_cons, decide_eq_true_eq, gt_iff_lt,
        if_neg h, if_pos h2, List.map_cons]

/-- The heartbeat loop keeps, with a fresh activity stamp, exactly the
entries whose sink delivery succeeds. -/
theorem sendHeartbeatLoop_eq (now : Int) (l : List SSEConnection) :
    sendHeartbeatLoop now l =
      (l.filter (fun c => decide (c.enqueueOutcome = EnqueueOutcome.ok))).map
        (fun c => { c with lastActivity := now }) := by
  induction l with
  | nil => rfl
  | cons c rest ih =>
    cases h : c.enqueueOutcome <;> simp [sendHeartbeatLoop, h, ih, List.filter_cons]

/-- Dispatch returns a normal response echoing the request id whenever a
tools/call request carries a params object (other methods never read
params). -/
theorem dispatchOkOfParams (r : MCPRequest) (p : Provider)
    (h : r.method = "tools/call" → r.params.isSome) :
    ∃ resp : MCPResponse, handleMCPRequestInternal r p = Except.ok resp ∧ resp.id = r.id := by
  unfold handleMCPRequestInternal
  split_ifs with h1 h2 h3 h4
  · exact ⟨_, rfl, rfl⟩
  · exact ⟨_, rfl, rfl⟩
  · exact ⟨_, rfl, rfl⟩
  · have hs := h h4
    unfold handleToolCallWrapper
    cases hp : r.params with
    | none => rw [hp] at hs; simp at hs
    | some prm =>
      cases hinv : invokeTool p prm.name prm.arguments with
      | ok result =>
        exact ⟨⟨"2.0", r.id, some (ResultVal.content result), none⟩, by simp [hp, hinv], rfl⟩
      | error msg =>
        exact ⟨⟨"2.0", r.id, none, some ⟨-32603, "Tool execution failed: " ++ msg⟩⟩,
          by simp [hp, hinv], rfl⟩
  · exact ⟨_, rfl, rfl⟩

/-- A name outside the published catalog falls through every switch case
and raises the `Unknown tool` error. -/
theorem invokeToolUnknown (p : Provider) (name : String) (args : Option String)
    (h : name ∉ toolNames) :
    invokeTool p name args = Except.error ("Unknown tool: " ++ name) := by
  have n1 : ¬ name = "search_genealogy_resources" := fun e => h (by rw [e]; decide)
  have n2 : ¬ name = "browse_categories" := fun e => h (by rw [e]; decide)
  have n3 : ¬ name = "get_resource_details" := fun e => h (by rw [e]; decide)
  have n4 : ¬ name = "filter_resources" := fun e => h (by rw [e]; decide)
  have n5 : ¬ name = "get_location_resources" := fun e => h (by rw [e]; decide)
  simp [invokeTool, n1, n2, n3, n4, n5]

/-! ## Claim theorems -/

/-- C1 (code bug evidence): with no single secret configured but a
non-empty multi-secret field, authenticateRequestMultiKey authorizes a
request with no Authorization header at all, and also one carrying a
wrong token — the multi-secret field alone never enforces
authentication, because the single-token check authorizes everything in
public mode and its result is returned before the multi-token check can
run. -/
theorem c1_multiTokensOnly_bypasses_auth :
    (authenticateRequestMultiKey none ⟨none, some "secret_a", none, none⟩).isAuthenticated = true
    ∧ authenticateRequestMultiKey (some "Bearer wrong_token")
        ⟨none, some "secret_a", none, none⟩ = ⟨true, none⟩ := by decide

/-- C5: the idle sweep closes and removes from the registry exactly the
sessions whose `now - lastActivity` strictly exceeds three heartbeat
intervals, and the sessions at or below the threshold survive unchanged
and in order. -/
theorem c5_cleanup_sweeps_exactly_idle (registry : List SSEConnection) (now hb : Int) :
    (cleanup registry now hb).1
        = registry.filter (fun c => decide (now - c.lastActivity ≤ hb * 3))
    ∧ (cleanup registry now hb).2
        = (registry.filter (fun c => decide (hb * 3 < now - c.lastActivity))).map (fun c => c.id) := by
  have h := cleanupLoop_eq now (hb * 3) registry
  exact ⟨by simp [cleanup, h], by simp [cleanup, h]⟩

/-- C6: a heartbeat broadcast consults every session in the registry;
the sessions whose sink delivery does not succeed (a throwing enqueue,
or a sink that swallows the failure and removes its own entry) are gone
from the registry when the broadcast returns, and every surviving
session is exactly an original one with `lastActivity` set to the
broadcast time. -/
theorem c6_heartbeat_updates_or_removes (registry : List SSEConnection) (now : Int) :
    sendHeartbeat registry now
      = (registry.filter (fun c => decide (c.enqueueOutcome = EnqueueOutcome.ok))).map
          (fun c => { c with lastActivity := now }) :=
  sendHeartbeatLoop_eq now registry

/-- C4 counterexample: a parsed tools/call request with no `params`
member makes handleToolCallWrapper throw (the destructuring happens
before its try block), so the dispatcher raises instead of returning a
Response carrying the request id. -/
theorem c4_counterexample_missing_params :
    handleMCPRequestInternal ⟨"2.0", RId.num 1, "tools/call", none⟩ trivialProvider
      = Except.error destructureTypeErrorMessage := by decide

/-- C4 (amended): for every parsed request that carries a params object
whenever its method is tools/call, the dispatcher returns a Response
whose id equals the request id exactly, for every method. -/
theorem c4_dispatch_echoes_id (r : MCPRequest) (p : Provider)
    (h : r.method = "tools/call" → r.params.isSome) :
    ∃ resp : MCPResponse, handleMCPRequestInternal r p = Except.ok resp ∧ resp.id = r.id :=
  dispatchOkOfParams r p h

/-- C4 witness: the amended theorem applied to a concrete tools/call
request with id 7. -/
theorem c4_witness :
    ∃ resp : MCPResponse,
      handleMCPRequestInternal
          ⟨"2.0", RId.num 7, "tools/call", some ⟨"browse_categories", none⟩⟩ trivialProvider
        = Except.ok resp ∧ resp.id = RId.num 7 :=
  c4_dispatch_echoes_id ⟨"2.0", RId.num 7, "tools/call", some ⟨"browse_categories", none⟩⟩
    trivialProvider (by decide)

/-- C7: on a tools/call dispatch carrying a params object, an unknown
tool name produces the structured -32603 error with the diagnostic
message `Tool execution failed: Unknown tool: <name>`, any provider
throw produces the structured -32603 error carrying the provider
message, and the synchronous POST / path returns HTTP 200 (never 500)
for such a request. -/
theorem c7_tool_errors (sseReq : MCPSSERequest) (prm : ToolCallParams) (p : Provider)
    (authorization : Option String) (env : Env) (registry : List SSEConnection)
    (now : Int) (freshId : String) (freshSink : EnqueueOutcome)
    (hm : sseReq.method = "tools/call") (hp : sseReq.params = some prm) :
    (prm.name ∉ toolNames →
      handleMCPRequestInternal sseReq.toMCPRequest p =
        Except.ok ⟨"2.0", sseReq.id, none,
          some ⟨-32603, "Tool execution failed: Unknown tool: " ++ prm.name⟩⟩)
    ∧ (∀ msg, invokeTool p prm.name prm.arguments = Except.error msg →
      handleMCPRequestInternal sseReq.toMCPRequest p =
        Except.ok ⟨"2.0", sseReq.id, none, some ⟨-32603, "Tool execution failed: " ++ msg⟩⟩)
    ∧ ((authenticateRequestMultiKey authorization env).isAuthenticated = true →
      (fetch HttpMethod.POST "/" authorization (some sseReq) env registry now
          freshId freshSink p).response.status = 200) := by
  have herr : ∀ msg, invokeTool p prm.name prm.arguments = Except.error msg →
      handleMCPRequestInternal sseReq.toMCPRequest p =
        Except.ok ⟨"2.0", sseReq.id, none, some ⟨-32603, "Tool execution failed: " ++ msg⟩⟩ := by
    intro msg hmsg
    simp [handleMCPRequestInternal, MCPSSERequest.toMCPRequest, hm,
      handleToolCallWrapper, hp, hmsg]
  refine ⟨?_, herr, ?_⟩
  · intro hunknown
    exact herr ("Unknown tool: " ++ prm.name) (invokeToolUnknown p prm.name prm.arguments hunknown)
  · intro hauth
    obtain ⟨resp, heq, -⟩ := dispatchOkOfParams sseReq.toMCPRequest p
      (fun _ => by simp [MCPSSERequest.toMCPRequest, hp])
    simp [fetch, hauth, handleMCPRequest, heq]

/-- C7 witness: the theorem applied to a concrete tools/call request
naming a nonexistent tool, with no secrets configured. -/
theorem c7_witness :
    (handleMCPRequestInternal
        (⟨"2.0", RId.num 3, "tools/call", some ⟨"nonexistent_tool", none⟩, none⟩ :
          MCPSSERequest).toMCPRequest trivialProvider
      = Except.ok ⟨"2.0", RId.num 3, none,
          some ⟨-32603, "Tool execution failed: Unknown tool: nonexistent_tool"⟩⟩)
    ∧ (fetch HttpMethod.POST "/" none
        (some ⟨"2.0", RId.num 3, "tools/call", some ⟨"nonexistent_tool", none⟩, none⟩)
        ⟨none, none, none, none⟩ [] 0 "conn" EnqueueOutcome.ok
        trivialProvider).response.status = 200 := by
  have h := c7_tool_errors
    ⟨"2.0", RId.num 3, "tools/call", some ⟨"nonexistent_tool", none⟩, none⟩
    ⟨"nonexistent_tool", none⟩ trivialProvider none ⟨none, none, none, none⟩ [] 0 "conn"
    EnqueueOutcome.ok rfl rfl
  exact ⟨h.1 (by decide), h.2.2 (by decide)⟩

/-- C2 counterexample: a POST to the default path whose body fails to
parse is answered with HTTP 200 (carrying the -32700 envelope), not the
HTTP 400 the claim states. -/
theorem c2_counterexample_parse_error_http200 :
    (fetch HttpMethod.POST "/" none none ⟨none, none, none, none⟩ [] 0 "conn"
        EnqueueOutcome.ok trivialProvider).response.status ≠ 400
    ∧ (fetch HttpMethod.POST "/" none none ⟨none, none, none, none⟩ [] 0 "conn"
        EnqueueOutcome.ok trivialProvider).response
      = ⟨200, RespBody.mcp ⟨"2.0", RId.num 0, none, some ⟨-32700, "Parse error"⟩⟩⟩ := by decide

/-- C2 (amended): for every authenticated POST whose body fails to
parse, the stream path answers HTTP 400 with the -32700 body, while the
default path answers HTTP 200 whose body is the structured -32700
Response envelope; neither path produces a 500. -/
theorem c2_parse_error_responses (authorization : Option String) (env : Env)
    (registry : List SSEConnection) (now : Int) (freshId : String)
    (freshSink : EnqueueOutcome) (p : Provider)
    (hauth : (authenticateRequestMultiKey authorization env).isAuthenticated = true) :
    (fetch HttpMethod.POST "/sse" authorization none env registry now freshId freshSink p).response
        = ⟨400, RespBody.errJson "Invalid JSON" (-32700)⟩
    ∧ (fetch HttpMethod.POST "/" authorization none env registry now freshId freshSink p).response
        = ⟨200, RespBody.mcp ⟨"2.0", RId.num 0, none, some ⟨-32700, "Parse error"⟩⟩⟩ := by
  constructor
  · simp [fetch, handleSSERequest, hauth]
  · simp [fetch, hauth, handleMCPRequest]

/-- C2 witness: the amended theorem at a concrete unauthenticated-mode
environment. -/
theorem c2_witness :
    (fetch HttpMethod.POST "/sse" none none ⟨none, none, none, none⟩ [] 0 "conn"
        EnqueueOutcome.ok trivialProvider).response
        = ⟨400, RespBody.errJson "Invalid JSON" (-32700)⟩
    ∧ (fetch HttpMethod.POST "/" none none ⟨none, none, none, none⟩ [] 0 "conn"
        EnqueueOutcome.ok trivialProvider).response
        = ⟨200, RespBody.mcp ⟨"2.0", RId.num 0, none, some ⟨-32700, "Parse error"⟩⟩⟩ :=
  c2_parse_error_responses none ⟨none, none, none, none⟩ [] 0 "conn" EnqueueOutcome.ok
    trivialProvider (by decide)

/-- C3 counterexample: the empty string is a connectionId that is never
present in the registry, yet the JS truthiness check
`if (sseRequest.connectionId)` treats it as absent: the lookup is
skipped, the request is dispatched, and the server answers HTTP 200
with the direct response instead of the claimed 400 `Connection not
found` with no dispatch. -/
theorem c3_counterexample_empty_connection_id :
    (fetch HttpMethod.POST "/sse" none
        (some ⟨"2.0", RId.num 1, "initialize", none, some ""⟩)
        ⟨none, none, none, none⟩ [⟨"conn_a", 0, 0, EnqueueOutcome.ok⟩] 5 "f"
        EnqueueOutcome.ok trivialProvider).response.status = 200
    ∧ (fetch HttpMethod.POST "/sse" none
        (some ⟨"2.0", RId.num 1, "initialize", none, some ""⟩)
        ⟨none, none, none, none⟩ [⟨"conn_a", 0, 0, EnqueueOutcome.ok⟩] 5 "f"
        EnqueueOutcome.ok trivialProvider).response.status ≠ 400
    ∧ (fetch HttpMethod.POST "/sse" none
        (some ⟨"2.0", RId.num 1, "initialize", none, some ""⟩)
        ⟨none, none, none, none⟩ [⟨"conn_a", 0, 0, EnqueueOutcome.ok⟩] 5 "f"
        EnqueueOutcome.ok trivialProvider).dispatched
      = [(⟨"2.0", RId.num 1, "initialize", none, some ""⟩ : MCPSSERequest).toMCPRequest] := by
  decide

/-- C3 (amended): an authenticated POST to the stream path whose parsed
body carries a non-empty connectionId not present in the registry fails
closed: HTTP 400, body `Connection not found` with code -32001, no
dispatch, no delivery, and the registry is left exactly as it was.  (An
empty-string connectionId is falsy in JS, so the check is skipped and
the request is dispatched with the response returned directly.) -/
theorem c3_unknown_connection_fails_closed (authorization : Option String) (env : Env)
    (sseReq : MCPSSERequest) (cid : String) (registry : List SSEConnection) (now : Int)
    (freshId : String) (freshSink : EnqueueOutcome) (p : Provider)
    (hauth : (authenticateRequestMultiKey authorization env).isAuthenticated = true)
    (hcid : sseReq.connectionId = some cid) (hne : cid ≠ "")
    (habsent : ∀ c ∈ registry, c.id ≠ cid) :
    fetch HttpMethod.POST "/sse" authorization (some sseReq) env registry now freshId freshSink p
      = ⟨⟨400, RespBody.errJson "Connection not found" (-32001)⟩, registry, [], []⟩ := by
  have hfind : registry.find? (fun c => c.id == cid) = none := by
    rw [List.find?_eq_none]
    intro c hc
    simpa using habsent c hc
  simp [fetch, handleSSERequest, hauth, jsTruthy, hcid, hne, hfind]

/-- C3 witness: the theorem at a one-session registry and a foreign
connection id. -/
theorem c3_witness :
    fetch HttpMethod.POST "/sse" none
        (some ⟨"2.0", RId.num 1, "initialize", none, some "conn_b"⟩)
        ⟨none, none, none, none⟩ [⟨"conn_a", 0, 0, EnqueueOutcome.ok⟩] 5 "f"
        EnqueueOutcome.ok trivialProvider
      = ⟨⟨400, RespBody.errJson "Connection not found" (-32001)⟩,
          [⟨"conn_a", 0, 0, EnqueueOutcome.ok⟩], [], []⟩ :=
  c3_unknown_connection_fails_closed none ⟨none, none, none, none⟩
    ⟨"2.0", RId.num 1, "initialize", none, some "conn_b"⟩ "conn_b"
    [⟨"conn_a", 0, 0, EnqueueOutcome.ok⟩] 5 "f" EnqueueOutcome.ok trivialProvider
    (by decide) rfl (by decide) (by decide)

/-- C8: an unauthenticated GET /health in an environment with no secrets
configured and an empty registry returns HTTP 200 with status healthy
and an active-session count of 0 (the stats record reports 0 total and 0
active connections), and the registry stays empty. -/
theorem c8_health_ok (env : Env) (now : Int) (freshId : String) (freshSink : EnqueueOutcome)
    (p : Provider)
    (h1 : env.MCP_AUTH_TOKEN = none) (h2 : env.MCP_AUTH_TOKENS = none) :
    fetch HttpMethod.GET "/health" none none env [] now freshId freshSink p
      = ⟨⟨200, RespBody.health "healthy" (jsOr env.ENVIRONMENT "unknown")
            (!(env.SSE_ENABLED == some "false")) ⟨0, 0⟩⟩, [], [], []⟩ := by
  simp [fetch, getSSEStats, cleanup, cleanupLoop]

/-- C8 witness: the theorem at the empty environment. -/
theorem c8_witness :
    fetch HttpMethod.GET "/health" none none ⟨none, none, none, none⟩ [] 5 "conn"
        EnqueueOutcome.ok trivialProvider
      = ⟨⟨200, RespBody.health "healthy" "unknown" true ⟨0, 0⟩⟩, [], [], []⟩ :=
  c8_health_ok ⟨none, none, none, none⟩ 5 "conn" EnqueueOutcome.ok trivialProvider rfl rfl

/-- C9 counterexample: an authenticated POST to the stream path whose
body parses with no connectionId but is a tools/call without params
makes the dispatcher throw, and the server answers HTTP 500, not the
direct 200 Response the claim states. -/
theorem c9_counterexample_dispatch_throws :
    (fetch HttpMethod.POST "/sse" none
        (some ⟨"2.0", RId.num 1, "tools/call", none, none⟩)
        ⟨none, none, none, none⟩ [] 0 "conn" EnqueueOutcome.ok trivialProvider).response.status = 500
    ∧ (fetch HttpMethod.POST "/sse" none
        (some ⟨"2.0", RId.num 1, "tools/call", none, none⟩)
        ⟨none, none, none, none⟩ [] 0 "conn" EnqueueOutcome.ok
        trivialProvider).response.status ≠ 200 := by decide

/-- C9 (amended): for every authenticated POST to the stream path whose
body parses with no connectionId and carries params whenever the method
is tools/call, the request is dispatched and the full MCP Response is
returned directly in the HTTP body with status 200 (wrapped in the SSE
envelope fields), nothing is delivered through any sink, and the
registry is left unchanged. -/
theorem c9_direct_response_path (authorization : Option String) (env : Env)
    (sseReq : MCPSSERequest) (registry : List SSEConnection) (now : Int)
    (freshId : String) (freshSink : EnqueueOutcome) (p : Provider)
    (hauth : (authenticateRequestMultiKey authorization env).isAuthenticated = true)
    (hcid : sseReq.connectionId = none)
    (hparams : sseReq.method = "tools/call" → sseReq.params.isSome) :
    ∃ resp : MCPResponse,
      handleMCPRequestInternal sseReq.toMCPRequest p = Except.ok resp ∧
      fetch HttpMethod.POST "/sse" authorization (some sseReq) env registry now
          freshId freshSink p
        = ⟨⟨200, RespBody.sseDirect (toSSEResponse resp none now)⟩, registry, [],
            [sseReq.toMCPRequest]⟩ := by
  obtain ⟨resp, heq, -⟩ := dispatchOkOfParams sseReq.toMCPRequest p hparams
  refine ⟨resp, heq, ?_⟩
  simp [fetch, handleSSERequest, hauth, jsTruthy, hcid, heq]

/-- C9 witness: the amended theorem at a concrete initialize request
over a non-trivial registry. -/
theorem c9_witness :
    ∃ resp : MCPResponse,
      handleMCPRequestInternal
          (⟨"2.0", RId.num 2, "initialize", none, none⟩ : MCPSSERequest).toMCPRequest
          trivialProvider = Except.ok resp ∧
      fetch HttpMethod.POST "/sse" none (some ⟨"2.0", RId.num 2, "initialize", none, none⟩)
          ⟨none, none, none, none⟩ [⟨"conn_a", 0, 0, EnqueueOutcome.ok⟩] 5 "f"
          EnqueueOutcome.ok trivialProvider
        = ⟨⟨200, RespBody.sseDirect
              (toSSEResponse resp none 5)⟩,
            [⟨"conn_a", 0, 0, EnqueueOutcome.ok⟩], [],
            [(⟨"2.0", RId.num 2, "initialize", none, none⟩ : MCPSSERequest).toMCPRequest]⟩ :=
  c9_direct_response_path none ⟨none, none, none, none⟩
    ⟨"2.0", RId.num 2, "initialize", none, none⟩ [⟨"conn_a", 0, 0, EnqueueOutcome.ok⟩] 5 "f"
    EnqueueOutcome.ok trivialProvider (by decide) rfl (by decide)

/-- C10: GET /health runs the idle cleanup on the shared registry before
reading the stats: after the call the registry holds exactly the
sessions within the 90000 ms threshold, the reported totals count only
those (total and active coincide because the two thresholds are equal),
and every session idle beyond the threshold has been removed. -/
theorem c10_health_mutates_registry (authorization : Option String) (env : Env)
    (registry : List SSEConnection) (now : Int) (freshId : String)
    (freshSink : EnqueueOutcome) (p : Provider) :
    (fetch HttpMethod.GET "/health" authorization none env registry now freshId
        freshSink p).registry
        = registry.filter (fun c => decide (now - c.lastActivity ≤ 90000))
    ∧ (fetch HttpMethod.GET "/health" authorization none env registry now freshId
        freshSink p).response
        = ⟨200, RespBody.health "healthy" (jsOr env.ENVIRONMENT "unknown")
            (!(env.SSE_ENABLED == some "false"))
            ⟨(registry.filter (fun c => decide (now - c.lastActivity ≤ 90000))).length,
             (registry.filter (fun c => decide (now - c.lastActivity ≤ 90000))).length⟩⟩
    ∧ ∀ c ∈ registry, 90000 < now - c.lastActivity →
        c ∉ (fetch HttpMethod.GET "/health" authorization none env registry now freshId
              freshSink p).registry := by
  have hclean : (cleanup registry now heartbeatIntervalDefault).1
      = registry.filter (fun c => decide (now - c.lastActivity ≤ 90000)) := by
    unfold cleanup
    rw [cleanupLoop_eq]
    norm_num [heartbeatIntervalDefault]
  have hff : (registry.filter (fun c => decide (now - c.lastActivity ≤ 90000))).filter
        (fun c => decide (now - c.lastActivity ≤ 90000))
      = registry.filter (fun c => decide (now - c.lastActivity ≤ 90000)) := by
    rw [List.filter_filter]
    simp
  refine ⟨?_, ?_, ?_⟩
  · simp [fetch, getSSEStats, hclean]
  · simp [fetch, getSSEStats, hclean, hff]
  · intro c _ hidle hmem
    simp [fetch, getSSEStats, hclean, List.mem_filter] at hmem
    omega

/-- C10 witness: the theorem applied to a registry holding one stale and
one fresh session; the stale one is gone after the health call. -/
theorem c10_witness :
    (⟨"conn_old", 0, 0, EnqueueOutcome.ok⟩ : SSEConnection) ∉
      (fetch HttpMethod.GET "/health" none none ⟨none, none, none, none⟩
        [⟨"conn_old", 0, 0, EnqueueOutcome.ok⟩, ⟨"conn_new", 0, 100000, EnqueueOutcome.ok⟩]
        100000 "f" EnqueueOutcome.ok trivialProvider).registry :=
  (c10_health_mutates_registry none ⟨none, none, none, none⟩
    [⟨"conn_old", 0, 0, EnqueueOutcome.ok⟩, ⟨"conn_new", 0, 100000, EnqueueOutcome.ok⟩]
    100000 "f" EnqueueOutcome.ok trivialProvider).2.2
    ⟨"conn_old", 0, 0, EnqueueOutcome.ok⟩ (by decide) (by decide)

end CLG
